import Mathlib

/-
Verification development for the TGStat scraper (src/pars.py).

The Python source is shallowly embedded: pure string manipulation and the
regular expressions appearing literally in the source are translated to
executable Lean functions over `List Char`; the markup-tree query primitives
(BeautifulSoup `find`/`select` calls) are treated as external capabilities, so
an HTML fragment is represented by the per-card query results those calls
would return; the HTTP transport is an oracle mapping the index of a request
to the response it returns (`none` = transport failure or JSON-decode
failure).  Python exceptions that the code does not catch are modelled with
`Except`; a Python function that can return `None` returns an `Option`.

Modelling notes, applying throughout:
* Python `float(s)` rounds a decimal literal to the nearest IEEE double; it is
  modelled here by the exact decimal value `mantissa * 10 ^ exponent`, and the
  later scaling by 1000 / 1000000 and truncation by `int(...)` is performed
  exactly.  For every divergence the two differ by at most one unit in the
  last place of the double, which no claim under study depends on.
  Numeric-literal underscores and non-ASCII digits accepted by Python are not
  modelled; no claim mentions them.
* `str.lower`, `str.strip`, `\w` and `\s` are modelled on ASCII.
-/

/-! ### Python string primitives -/

/-- Model of Python `str.strip()`: drop leading and trailing whitespace. -/
def pyStrip (s : String) : String :=
  String.mk (((s.data.dropWhile Char.isWhitespace).reverse.dropWhile
    Char.isWhitespace).reverse)

/-- Model of Python `str.lower()` (ASCII). -/
def pyLower (s : String) : String :=
  String.mk (s.data.map Char.toLower)

/-- Model of Python `str.replace(old, new)` where `old` is a single character
and `new` is a single character (`some c`) or the empty string (`none`). -/
def pyReplaceChar (old : Char) (new : Option Char) (s : String) : String :=
  String.mk (s.data.filterMap (fun c => if c = old then new else some c))

/-- Model of Python `pre in s` test specialised to prefixes (`str.startswith`). -/
def pyStartsWith (s pre : String) : Bool :=
  pre.data.isPrefixOf s.data

/-- Does `pat` occur as a contiguous subsequence of `cs`? -/
def containsSeq (pat : List Char) : List Char → Bool
  | [] => pat.isPrefixOf []
  | c :: cs => pat.isPrefixOf (c :: cs) || containsSeq pat cs

/-- Model of the Python substring test `pat in s`. -/
def pyContainsStr (s pat : String) : Bool :=
  containsSeq pat.data s.data

/-- Numeric value of a list of decimal digit characters. -/
def digitsVal (ds : List Char) : Nat :=
  ds.foldl (fun a c => 10 * a + (c.toNat - 48)) 0

/-- Split a character list into its leading run of decimal digits and the rest. -/
def takeDigits (cs : List Char) : List Char × List Char :=
  (cs.takeWhile Char.isDigit, cs.dropWhile Char.isDigit)

/-- Consume an optional leading sign; returns (isNegative, rest). -/
def parseSign : List Char → Bool × List Char
  | '+' :: cs => (false, cs)
  | '-' :: cs => (true, cs)
  | cs => (false, cs)

/-! ### Model of Python `float(...)` / `int(...)` string parsing -/

/-- The values `float(s)` can produce, with finite doubles modelled by the
exact decimal `m * 10 ^ e` that the literal denotes. -/
inductive PyFloat where
  | finite (m : Int) (e : Int)
  | inf
  | neginf
  | nan
deriving DecidableEq

/-- Parse an exponent suffix (the part after `e`): optional sign, then at
least one digit, consuming the whole remainder. -/
def parseExpPart (cs : List Char) : Option Int :=
  let (neg, cs1) := parseSign cs
  let (ds, rest) := takeDigits cs1
  if ds.isEmpty then none
  else if !rest.isEmpty then none
  else some (if neg then -(digitsVal ds : Int) else (digitsVal ds : Int))

/-- Parse an unsigned decimal float body `digits [. digits] [e exp]`,
returning (mantissa, power of ten).  Mirrors the grammar accepted by Python
`float` for finite lowercase literals. -/
def pyFloatBody? (cs : List Char) : Option (Nat × Int) :=
  let (ip, r1) := takeDigits cs
  match r1 with
  | '.' :: r2 =>
    let (fp, r3) := takeDigits r2
    if ip.isEmpty && fp.isEmpty then none
    else
      let m := digitsVal (ip ++ fp)
      let e : Int := -(fp.length : Int)
      match r3 with
      | [] => some (m, e)
      | 'e' :: r4 => (parseExpPart r4).map (fun ex => (m, e + ex))
      | _ => none
  | 'e' :: r2 =>
    if ip.isEmpty then none
    else (parseExpPart r2).map (fun ex => (digitsVal ip, ex))
  | [] => if ip.isEmpty then none else some (digitsVal ip, 0)
  | _ => none

/-- Model of Python `float(s)` for the lowercase strings produced by the
normalizer's cleaning step: `none` models `ValueError`. -/
def pyFloat? (s : String) : Option PyFloat :=
  let (neg, cs) := parseSign s.data
  if cs = "inf".data || cs = "infinity".data then
    some (if neg then PyFloat.neginf else PyFloat.inf)
  else if cs = "nan".data then some PyFloat.nan
  else (pyFloatBody? cs).map (fun p =>
    PyFloat.finite (if neg then -(p.1 : Int) else (p.1 : Int)) p.2)

/-- Model of Python `int(s)` for base-10 strings: `none` models `ValueError`. -/
def pyInt? (s : String) : Option Int :=
  let (neg, cs) := parseSign s.data
  let (ds, rest) := takeDigits cs
  if ds.isEmpty then none
  else if !rest.isEmpty then none
  else some (if neg then -(digitsVal ds : Int) else (digitsVal ds : Int))

/-- Truncate the exact decimal `m * 10 ^ e` toward zero, as Python `int(...)`
does on a finite float. -/
def truncDecimal (m e : Int) : Int :=
  if 0 ≤ e then m * (10 : Int) ^ e.toNat
  else
    let d : Nat := 10 ^ (-e).toNat
    if 0 ≤ m then Int.ofNat (m.toNat / d) else -Int.ofNat ((-m).toNat / d)

/-- The one exception `_parse_number` can leak: Python `int(...)` of an
infinite float raises `OverflowError`, which `except ValueError` does not
catch. -/
inductive PyError where
  | overflowError
deriving DecidableEq

/-- Model of Python `int(f * 10 ^ scale)` on a parsed float `f`: finite values
truncate exactly; `int(inf)` raises `OverflowError`; `int(nan)` raises
`ValueError`, which the enclosing `except ValueError` turns into `None`. -/
def intOfPyFloatScaled (f : PyFloat) (scale : Nat) : Except PyError (Option Int) :=
  match f with
  | PyFloat.finite m e => Except.ok (some (truncDecimal m (e + (scale : Int))))
  | PyFloat.inf => Except.error PyError.overflowError
  | PyFloat.neginf => Except.error PyError.overflowError
  | PyFloat.nan => Except.ok none

/-! ### NumberNormalizer: `TGStatParser._parse_number` (src/pars.py:293) -/

/-- The cleaning prefix of `_parse_number`:
`text.lower().strip().replace(',', '.').replace(' ', '')`. -/
def cleanNumText (text : String) : String :=
  pyReplaceChar ' ' none (pyReplaceChar ',' (some '.') (pyLower (pyStrip text)))

/-- Embedding of `TGStatParser._parse_number` (src/pars.py:293-312).
`Except.ok (some n)` is a parsed integer, `Except.ok none` is the `None`
returned on a caught `ValueError`, `Except.error` is the uncaught
`OverflowError` path. -/
def _parse_number (text : String) : Except PyError (Option Int) :=
  let t := cleanNumText text
  if t = "" || t = "n/a" || t = "0" then Except.ok (some 0)
  else if t.data.contains 'm' then
    match pyFloat? (pyReplaceChar 'm' none t) with
    | none => Except.ok none
    | some f => intOfPyFloatScaled f 6
  else if t.data.contains 'k' then
    match pyFloat? (pyReplaceChar 'k' none t) with
    | none => Except.ok none
    | some f => intOfPyFloatScaled f 3
  else
    match pyInt? t with
    | some n => Except.ok (some n)
    | none =>
      match pyFloat? t with
      | none => Except.ok none
      | some f => intOfPyFloatScaled f 0

/-! ### Regular expressions appearing literally in the source -/

/-- Python `\w` on ASCII: letters, digits, underscore. -/
def isWordChar (c : Char) : Bool :=
  c.isAlphanum || c = '_'

/-- The character class `[\w\d\-]` of the stat-link pattern. -/
def isHandleChar (c : Char) : Bool :=
  isWordChar c || c = '-'

/-- Does `cs` begin with the literal `/stat`? -/
def statSuffixOk (cs : List Char) : Bool :=
  "/stat".data.isPrefixOf cs

/-- Match the group `(@[\w_]+|[\w\d\-]+)` followed by `/stat` at the head of
`cs`, returning the group text.  Because neither character class contains
`/`, the greedy `+` can only be followed by `/stat` at the end of the maximal
run, so no further backtracking arises; and when the head is `@` the second
alternative cannot match either, exactly as in the Python regex. -/
def statHandleAt (cs : List Char) : Option String :=
  match cs with
  | '@' :: rest =>
    let run := rest.takeWhile isWordChar
    if run.isEmpty then none
    else if statSuffixOk (rest.drop run.length) then some (String.mk ('@' :: run))
    else none
  | _ =>
    let run := cs.takeWhile isHandleChar
    if run.isEmpty then none
    else if statSuffixOk (cs.drop run.length) then some (String.mk run)
    else none

/-- Match `/channel/(@[\w_]+|[\w\d\-]+)/stat` anchored at the head of `cs`. -/
def statLinkAt (cs : List Char) : Option String :=
  if "/channel/".data.isPrefixOf cs then statHandleAt (cs.drop 9) else none

/-- Leftmost-match search for the stat-link pattern, as `re.search` does. -/
def statLinkSearch : List Char → Option String
  | [] => none
  | c :: cs =>
    match statLinkAt (c :: cs) with
    | some g => some g
    | none => statLinkSearch cs

/-- Model of `re.search(r'/channel/(@[\w_]+|[\w\d\-]+)/stat', href)`,
returning group 1 (src/pars.py:210,226). -/
def statLinkMatch? (href : String) : Option String :=
  statLinkSearch href.data

/-- Model of `re.search(r'post-(\d+)', id_str)` followed by `int(group(1))`:
the leftmost occurrence of the literal `post-` followed by at least one
digit, taking the maximal digit run (src/pars.py:447-451). -/
def postIdSearch : List Char → Option Nat
  | [] => none
  | c :: cs =>
    if "post-".data.isPrefixOf (c :: cs) then
      let ds := (List.drop 5 (c :: cs)).takeWhile Char.isDigit
      if ds.isEmpty then postIdSearch cs else some (digitsVal ds)
    else postIdSearch cs

/-- Embedding of `TGStatParser._extract_post_id` applied to the container's
`id` attribute (`''` when the attribute is absent). -/
def _extract_post_id (idAttr : String) : Option Nat :=
  postIdSearch idAttr.data

/-- The character class `[\d\s,km.]` of the subscriber-fallback pattern. -/
def isNumRunChar (c : Char) : Bool :=
  c.isDigit || c.isWhitespace || c = ',' || c = 'k' || c = 'm' || c = '.'

/-- Leftmost maximal run matching `([\d\s,km.]+)`, as `re.search` finds it. -/
def numRunSearch : List Char → Option (List Char)
  | [] => none
  | c :: cs =>
    if isNumRunChar c then some (c :: cs.takeWhile isNumRunChar)
    else numRunSearch cs

/-- Model of `re.search(r'([\d\s,km.]+)', text)` group 1 (src/pars.py:277). -/
def firstNumRun (s : String) : Option String :=
  (numRunSearch s.data).map String.mk

/-- Model of `re.search` for the dropdown-link pattern
`https://t(?:elegram)?\.(?:me|org)/|https://ttttt\.me/` (src/pars.py:549):
the href matches iff it contains one of the five literal expansions. -/
def telegramHrefMatch (h : String) : Bool :=
  pyContainsStr h "https://t.me/" || pyContainsStr h "https://telegram.me/" ||
  pyContainsStr h "https://t.org/" || pyContainsStr h "https://telegram.org/" ||
  pyContainsStr h "https://ttttt.me/"

/-! ### MarkupExtractor, channel cards: `_parse_search_html` (src/pars.py:192)

A `ChannelCard` records the results of the markup-tree queries the code
performs on one `peer-item-row` element; the list of cards stands for the
fragment after the container/child selection steps, which are pure tree
queries. -/

/-- Query results for one channel card. -/
structure ChannelCard where
  /-- `href` attributes of the card's `<a>` tags, in document order. -/
  anchorHrefs : List String
  /-- Text of `div.text-truncate.font-16.text-dark.mt-n1`, when found. -/
  titleText : Option String
  /-- `src` of `img.img-thumbnail`; `none` when the tag or attribute is
  missing (an empty attribute is `some ""`, falsy in Python). -/
  avatarSrc : Option String
  /-- When `.col.col-12.col-sm-7` is found: the `h4` text of each
  `.col.col-4.pt-1` column, `none` for a column whose `h4` is missing. -/
  statsBlock : Option (List (Option String))
  /-- Text of `div.text-truncate.font-14.text-dark`, when found. -/
  subsFallbackText : Option String
  /-- Text of `span.border.rounded.bg-light.px-1`, when found. -/
  categoryText : Option String
deriving DecidableEq

/-- The record `_parse_search_html` builds per card. -/
structure ChannelInfo where
  tgstat_url : String
  username : Option String
  title : String
  avatar_url : Option String
  subscribers : Option Int
  subscribers_str : String
  avg_reach : Option Int
  avg_reach_str : String
  ci_index : Option Int
  ci_index_str : String
  category : String
deriving DecidableEq

/-- `TGStatParser.BASE_URL`. -/
def BASE_URL : String := "https://tgstat.ru"

/-- URL normalisation for the stat link (src/pars.py:216-224). -/
def channelUrlOf (href : String) : String :=
  if pyStartsWith href "/" then BASE_URL ++ href
  else if pyStartsWith href "http" then href
  else BASE_URL ++ "/" ++ href

/-- Avatar extraction with falsy-src check and protocol-relative
normalisation (src/pars.py:236-239). -/
def normalizeAvatar (src : Option String) : Option String :=
  match src with
  | none => none
  | some s =>
    if s = "" then none
    else if pyStartsWith s "//" then some ("https:" ++ s)
    else some s

/-- One statistics column (src/pars.py:253-269): a missing `h4` is the caught
`AttributeError` (defaults kept); otherwise the text is stripped — and for
the subscriber and ci columns also space-stripped — and fed to
`_parse_number`, whose `OverflowError` escapes to the per-card handler. -/
def colStat (removeSpaces : Bool) (cell : Option String) :
    Except PyError (Option Int × String) :=
  match cell with
  | none => Except.ok (none, "N/A")
  | some raw =>
    let t := if removeSpaces then pyReplaceChar ' ' none (pyStrip raw) else pyStrip raw
    match _parse_number t with
    | Except.error e => Except.error e
    | Except.ok v => Except.ok (v, t)

/-- Statistics extraction for one channel card (src/pars.py:242-281): the
3-column block when present with exactly three columns, then the
`font-14` fallback when subscribers is still `None`. -/
def channelStats (card : ChannelCard) :
    Except PyError ((Option Int × String) × (Option Int × String) × (Option Int × String)) :=
  let base :=
    match card.statsBlock with
    | some [c0, c1, c2] => do
      let s ← colStat true c0
      let r ← colStat false c1
      let ci ← colStat true c2
      Except.ok (s, r, ci)
    | _ => Except.ok ((none, "N/A"), (none, "N/A"), (none, "N/A"))
  match base with
  | Except.error e => Except.error e
  | Except.ok ((subs, subsStr), reach, ci) =>
    if subs = none then
      match card.subsFallbackText with
      | none => Except.ok ((subs, subsStr), reach, ci)
      | some txt =>
        match firstNumRun txt with
        | none => Except.ok ((subs, subsStr), reach, ci)
        | some m =>
          let t := pyReplaceChar ' ' none (pyStrip m)
          match _parse_number t with
          | Except.error e => Except.error e
          | Except.ok v => Except.ok ((v, t), reach, ci)
    else Except.ok ((subs, subsStr), reach, ci)

/-- Per-card body of `_parse_search_html` (src/pars.py:207-289): `none` when
the card is skipped — no anchored stat link (`continue` at line 213) or an
exception reaching the per-card `except Exception` handler. -/
def parseChannelCard (card : ChannelCard) : Option ChannelInfo :=
  match card.anchorHrefs.find? (fun h => (statLinkMatch? h).isSome) with
  | none => none
  | some href =>
    match channelStats card with
    | Except.error _ => none
    | Except.ok ((subs, subsStr), (reach, reachStr), (ci, ciStr)) =>
      some {
        tgstat_url := channelUrlOf href
        username := statLinkMatch? href
        title := (card.titleText.map pyStrip).getD "N/A"
        avatar_url := normalizeAvatar card.avatarSrc
        subscribers := subs
        subscribers_str := subsStr
        avg_reach := reach
        avg_reach_str := reachStr
        ci_index := ci
        ci_index_str := ciStr
        category := (card.categoryText.map pyStrip).getD "N/A" }

/-- Embedding of `TGStatParser._parse_search_html`: every card is processed
independently; skipped cards contribute nothing and never abort the batch. -/
def _parse_search_html (cards : List ChannelCard) : List ChannelInfo :=
  cards.filterMap parseChannelCard

/-- Does some anchor of the card carry a stat-page link? -/
def hasStatLink (card : ChannelCard) : Bool :=
  card.anchorHrefs.any (fun h => (statLinkMatch? h).isSome)

/-! ### MarkupExtractor, post cards: `_parse_posts_html` (src/pars.py:453) -/

/-- Query results for the body element (`div.post-body`) of one post card. -/
structure PostBody where
  /-- `get_text(separator='\n', strip=True)` of each `div.post-text`. -/
  textParts : List String
  /-- Presence of `div.post-img`. -/
  hasPostImg : Bool
  /-- Presence of `div.carousel`. -/
  hasCarousel : Bool
  /-- Presence of `div.wrapper-thumbnail`. -/
  hasWrapperThumbnail : Bool
  /-- Presence of `div.wrapper-video`. -/
  hasWrapperVideo : Bool
  /-- The body's `class` attribute list. -/
  classes : List String
  /-- `src` of `img.post-img-img`, `none` if tag or attribute missing. -/
  imgSrc : Option String
  /-- `src` of the first `source` inside a `video` tag, `none` if missing. -/
  videoSourceSrc : Option String
deriving DecidableEq

/-- Query results for the stats row (`.col.col-12.d-flex`): the stripped-text
source of each tooltip-selected counter element, when found. -/
structure StatsRow where
  viewsText : Option String
  sharesText : Option String
  forwardsText : Option String
deriving DecidableEq

/-- Query results for one `post-container` element. -/
structure PostCard where
  /-- The container's `id` attribute, `""` when absent (`get('id', '')`). -/
  idAttr : String
  /-- Outer layer: presence of `div.post-header`; inner layer: text of its
  `small` child, when found. -/
  headerSmallText : Option (Option String)
  /-- `div.post-body` query results, when the element exists. -/
  body : Option PostBody
  /-- Stats-row query results, when `.col.col-12.d-flex` exists. -/
  statsRow : Option StatsRow
  /-- `href` of the permanent-link anchor, `none` when tag or attr missing. -/
  permalinkHref : Option String
  /-- `href` attributes of `a.dropdown-item[target=_blank]` tags, in order. -/
  dropdownHrefs : List String
  /-- `href` of the open-in-Telegram fallback anchor. -/
  tgFallbackHref : Option String
deriving DecidableEq

/-- The dictionary `_parse_posts_html` builds per post; a field is `none`
when the corresponding key is absent or was set to Python `None`. -/
structure PostRecord where
  id : Option Nat
  datetime_str : Option String
  text : Option String
  has_photo : Option Bool
  has_video : Option Bool
  has_document : Option Bool
  image_url : Option String
  video_url : Option String
  views_str : String
  views : Option Int
  shares_str : String
  shares : Option Int
  forwards_str : String
  forwards : Option Int
  tgstat_post_url : Option String
  telegram_post_url : Option String
deriving DecidableEq

/-- One stats counter (src/pars.py:520-536): strip the element text, record
it, and parse it, letting `OverflowError` escape to the per-post handler. -/
def statField (txt : Option String) : Except PyError (String × Option Int) :=
  match txt with
  | none => Except.ok ("N/A", none)
  | some raw =>
    let t := pyStrip raw
    match _parse_number t with
    | Except.error e => Except.error e
    | Except.ok v => Except.ok (t, v)

/-- Views, shares and forwards of one post (src/pars.py:508-538), evaluated
in source order so an exception skips the later counters too. -/
def postStats (pt : PostCard) :
    Except PyError ((String × Option Int) × (String × Option Int) × (String × Option Int)) :=
  match pt.statsRow with
  | none => Except.ok (("N/A", none), ("N/A", none), ("N/A", none))
  | some row => do
    let v ← statField row.viewsText
    let s ← statField row.sharesText
    let f ← statField row.forwardsText
    Except.ok (v, s, f)

/-- Protocol-relative URL normalisation (`//host/x` becomes `https://host/x`). -/
def protoRel (u : String) : String :=
  if pyStartsWith u "//" then "https:" ++ u else u

/-- Post body text (src/pars.py:484-488): join the non-empty part texts with
newlines and strip the result. -/
def postText (b : PostBody) : String :=
  pyStrip (String.intercalate "\n" (b.textParts.filter (fun p => p != "")))

/-- `image_url` of a post body (src/pars.py:495-498). -/
def postImageUrl (b : PostBody) : Option String :=
  match b.imgSrc with
  | none => none
  | some s => if s = "" then none else some (protoRel s)

/-- `video_url` of a post body (src/pars.py:500-506). -/
def postVideoUrl (b : PostBody) : Option String :=
  match b.videoSourceSrc with
  | none => none
  | some s => if s = "" then none else some (protoRel s)

/-- Permanent tgstat link (src/pars.py:542-545), with falsy-href check. -/
def permalinkUrl (h : Option String) : Option String :=
  match h with
  | none => none
  | some s =>
    if s = "" then none
    else if pyStartsWith s "/" then some (BASE_URL ++ s)
    else some s

/-- Telegram deep link (src/pars.py:548-555): first dropdown anchor whose
href matches the host pattern, else the tooltip fallback anchor. -/
def telegramUrl (pt : PostCard) : Option String :=
  match pt.dropdownHrefs.find? telegramHrefMatch with
  | some h => some h
  | none =>
    match pt.tgFallbackHref with
    | none => none
    | some s => if s = "" then none else some s

/-- Per-post body of `_parse_posts_html` (src/pars.py:470-561): `none` when
an exception reaches the per-post `except Exception` handler (only
`_parse_number` can raise here).  Note that a missing or non-matching
container id does NOT skip the post: the record is kept with `id = none`. -/
def parsePostCard (pt : PostCard) : Option PostRecord :=
  match postStats pt with
  | Except.error _ => none
  | Except.ok ((vs, v), (ss, s), (fs, f)) =>
    some {
      id := _extract_post_id pt.idAttr
      datetime_str := pt.headerSmallText.map (fun sm => (sm.map pyStrip).getD "N/A")
      text := pt.body.map postText
      has_photo := pt.body.map (fun b => b.hasPostImg || b.hasCarousel)
      has_video := pt.body.map (fun b => b.hasWrapperThumbnail || b.hasWrapperVideo)
      has_document := pt.body.map (fun b => b.classes.contains "isDocument")
      image_url := pt.body.bind postImageUrl
      video_url := pt.body.bind postVideoUrl
      views_str := vs
      views := v
      shares_str := ss
      shares := s
      forwards_str := fs
      forwards := f
      tgstat_post_url := permalinkUrl pt.permalinkHref
      telegram_post_url := telegramUrl pt }

/-- Embedding of `TGStatParser._parse_posts_html`. -/
def _parse_posts_html (cards : List PostCard) : List PostRecord :=
  cards.filterMap parsePostCard

/-! ### PaginationDriver, post feed: `get_channel_posts` (src/pars.py:565)

The transport is an oracle from the index of the load-more request to the
value `_make_more_posts_request` returns (`none` = transport failure, JSON
failure, or a failed CSRF re-refresh).  The driver also records the
`(page, offset)` pair each load-more request would carry, so the claims about
which cursor a request uses are statements about this trace. -/

/-- A Python value usable as the pagination cursor (`last_post_id`): `None`,
an int, or a string; `truthy` is Python truthiness. -/
inductive PyCursor where
  | pyNone
  | pyInt (n : Int)
  | pyStr (s : String)
deriving DecidableEq

/-- Python truthiness of a cursor value. -/
def PyCursor.truthy : PyCursor → Bool
  | PyCursor.pyNone => false
  | PyCursor.pyInt n => n != 0
  | PyCursor.pyStr s => s != ""

/-- Cursor from a post's optional id (`post.get('id')`). -/
def cursorOfOptId : Option Nat → PyCursor
  | none => PyCursor.pyNone
  | some n => PyCursor.pyInt n

/-- Cursor from the last post of a batch (`posts[-1].get('id')`). -/
def cursorOfLast (posts : List PostRecord) : PyCursor :=
  match posts.getLast? with
  | none => PyCursor.pyNone
  | some p => cursorOfOptId p.id

/-- The JSON envelope of a load-more response, after decoding.  `html = none`
models both an absent `html` key and an empty html string (`get('html', '')`
followed by `if not html_content`); `some cards` is a non-empty fragment
whose markup-tree navigation yields `cards`. -/
structure MoreResult where
  status : Option String
  html : Option (List PostCard)
  hasMore : Bool
  nextPage : Option PyCursor
  nextOffset : Option Int
deriving DecidableEq

/-- Cursor advance (src/pars.py:628-633): prefer the envelope's `nextPage`,
else fall back to the id of the last newly extracted post. -/
def nextCursor (r : MoreResult) (newPosts : List PostRecord) : PyCursor :=
  match r.nextPage with
  | some c => c
  | none => cursorOfLast newPosts

/-- Offset advance (src/pars.py:636): the envelope's `nextOffset`, else the
previous offset plus the size of the new batch. -/
def nextOffsetVal (r : MoreResult) (off : Int) (newPosts : List PostRecord) : Int :=
  match r.nextOffset with
  | some v => v
  | none => off + (newPosts.length : Int)

/-- The `while` loop of `get_channel_posts` (src/pars.py:598-644).  `fuel`
bounds the number of iterations (the Python loop has no such bound and can in
principle run forever); `none` means the bound was hit while the loop would
continue, `some (acc, trace)` is a genuine exit with the accumulated posts
and the `(cursor, offset)` pairs of the load-more requests issued. -/
def postsLoop (resp : Nat → Option MoreResult) (maxPosts : Nat) :
    Nat → List PostRecord → PyCursor → Int → Bool → Nat →
    List (PyCursor × Int) → Option (List PostRecord × List (PyCursor × Int))
  | 0, acc, last, _off, hm, _k, tr =>
    if acc.length < maxPosts ∧ hm = true ∧ PyCursor.truthy last = true then none
    else some (acc, tr)
  | (fuel+1), acc, last, off, hm, k, tr =>
    if acc.length < maxPosts ∧ hm = true ∧ PyCursor.truthy last = true then
      let tr' := tr ++ [(last, off)]
      match resp k with
      | none => some (acc, tr')
      | some r =>
        if r.status = some "ok" then
          match r.html with
          | none => some (acc, tr')
          | some cards =>
            let newPosts := _parse_posts_html cards
            if newPosts = [] then some (acc, tr')
            else
              let acc' := acc ++ newPosts
              let last' := nextCursor r newPosts
              let off' := nextOffsetVal r off newPosts
              if PyCursor.truthy last' = true then
                postsLoop resp maxPosts fuel acc' last' off' r.hasMore (k+1) tr'
              else some (acc', tr')
        else some (acc, tr')
    else some (acc, tr)

/-- The transport surface `get_channel_posts` consumes: the initial landing
page (`none` = fetch failure or empty body) and the load-more endpoint. -/
structure PostsOracle where
  initialHtml : Option (List PostCard)
  more : Nat → Option MoreResult

/-- Embedding of `TGStatParser.get_channel_posts` (src/pars.py:565-646).
The inner `Option` is the Python return value (`none` = Python `None`);
the outer `Option` is the iteration bound of `postsLoop`.  The second
component is the load-more request trace. -/
def get_channel_posts (o : PostsOracle) (channel : String) (maxPosts : Nat)
    (fuel : Nat) : Option (Option (List PostRecord) × List (PyCursor × Int)) :=
  if channel = "" then some (none, [])
  else
    match o.initialHtml with
    | none => some (none, [])
    | some cards =>
      let allPosts := _parse_posts_html cards
      if allPosts = [] then some (some [], [])
      else
        match postsLoop o.more maxPosts fuel allPosts (cursorOfLast allPosts)
            (allPosts.length : Int) true 0 [] with
        | none => none
        | some (acc, tr) => some (some (acc.take maxPosts), tr)

/-! ### PaginationDriver, channel search: `search_channels` (src/pars.py:314) -/

/-- The JSON envelope of a search response; `html = none` models an absent
`html` key or an empty html string, as for posts. -/
structure SearchEnv where
  status : Option String
  html : Option (List ChannelCard)
  hasMore : Bool
  nextPage : Option Nat
  nextOffset : Option Int
deriving DecidableEq

/-- The failure test of src/pars.py:335: request returned `None` (transport
or JSON decode failure) or the envelope status is not `"ok"`. -/
def searchReqFails : Option SearchEnv → Bool
  | none => true
  | some env => env.status != some "ok"

/-- The `while` loop of `search_channels` (src/pars.py:332-363), with the
same fuel discipline and request trace as `postsLoop`.  The inner `Option` in
the result is the Python return value (`none` = Python `None`, the
distinguished failure outcome). -/
def searchLoop (resp : Nat → Option SearchEnv) (maxPages : Nat) :
    Nat → Nat → Int → Bool → List ChannelInfo → Nat →
    List (Nat × Int) → Option (Option (List ChannelInfo) × List (Nat × Int))
  | 0, page, _off, hm, acc, _k, tr =>
    if page < maxPages ∧ hm = true then none
    else some (some acc, tr)
  | (fuel+1), page, off, hm, acc, k, tr =>
    if page < maxPages ∧ hm = true then
      let tr' := tr ++ [(page, off)]
      match resp k with
      | none => if page = 0 then some (none, tr') else some (some acc, tr')
      | some env =>
        if env.status = some "ok" then
          match env.html with
          | none => some (some acc, tr')
          | some cards =>
            let parsed := _parse_search_html cards
            if parsed = [] ∧ page = 0 then some (some [], tr')
            else
              searchLoop resp maxPages fuel (env.nextPage.getD (page+1))
                (env.nextOffset.getD (off+30)) env.hasMore (acc ++ parsed)
                (k+1) tr'
        else if page = 0 then some (none, tr') else some (some acc, tr')
    else some (some acc, tr)

/-- Embedding of `TGStatParser.search_channels` (src/pars.py:314-365): starts
at page 0, offset 0, `has_more = True`.  The second component is the trace of
`(page, offset)` pairs of the search requests issued. -/
def search_channels (resp : Nat → Option SearchEnv) (maxPages : Nat)
    (fuel : Nat) : Option (Option (List ChannelInfo) × List (Nat × Int)) :=
  searchLoop resp maxPages fuel 0 0 true [] 0 []

/-! ### TokenSession: `_refresh_csrf_token` and `__init__` (src/pars.py:44-98) -/

/-- Query results on the fetched token-carrier page: the `content` of
`meta[name=csrf-token]` and the `value` of `input[name=_tgstat_csrk]`, each
`none` when the tag or the attribute is missing. -/
structure TokenPage where
  metaContent : Option String
  inputValue : Option String
deriving DecidableEq

/-- Embedding of `TGStatParser._refresh_csrf_token`: the fetch is an oracle
(`none` = transport failure or any other exception).  Returns the new value
of `csrf_token_form` and the success flag; the previous token is never read,
so a failed refresh always leaves the stored token `none`, not stale. -/
def _refresh_csrf_token (fetch : Option TokenPage) : Option String × Bool :=
  match fetch with
  | none => (none, false)
  | some page =>
    match page.metaContent with
    | some c => (some c, true)
    | none =>
      match page.inputValue with
      | some v => (some v, true)
      | none => (none, false)

/-- The `ConnectionError` message raised by `__init__` on a failed first
refresh. -/
def connInitError : String :=
  "Failed to initialize TGStatParser: Could not obtain CSRF token."

/-- Embedding of `TGStatParser.__init__` (src/pars.py:44-53): perform the
first refresh; on failure raise `ConnectionError`, otherwise the parser
holds the obtained token. -/
def initParser (fetch : Option TokenPage) : Except String (Option String) :=
  match _refresh_csrf_token fetch with
  | (tok, true) => Except.ok tok
  | (_, false) => Except.error connInitError

/-! ### Concrete fixtures used by the claims -/

/-- A well-formed channel card: one anchor carrying a stat link. -/
def goodChannelCard : ChannelCard :=
  { anchorHrefs := ["/channel/@testchan/stat"]
    titleText := some "Test Channel"
    avatarSrc := none
    statsBlock := none
    subsFallbackText := none
    categoryText := none }

/-- A channel card whose anchors carry no stat link (the mandatory anchor is
missing). -/
def noStatLinkCard : ChannelCard :=
  { anchorHrefs := ["/about"]
    titleText := some "No Link"
    avatarSrc := none
    statsBlock := none
    subsFallbackText := none
    categoryText := none }

/-- The record extracted from `goodChannelCard`. -/
def goodChannelInfo : ChannelInfo :=
  { tgstat_url := "https://tgstat.ru/channel/@testchan/stat"
    username := some "@testchan"
    title := "Test Channel"
    avatar_url := none
    subscribers := none
    subscribers_str := "N/A"
    avg_reach := none
    avg_reach_str := "N/A"
    ci_index := none
    ci_index_str := "N/A"
    category := "N/A" }

/-- A post card whose container id does not match `post-<digits>`. -/
def noIdPostCard : PostCard :=
  { idAttr := "card-77"
    headerSmallText := none
    body := none
    statsRow := none
    permalinkHref := none
    dropdownHrefs := []
    tgFallbackHref := none }

/-- The record extracted from `noIdPostCard`: kept, with `id = none`. -/
def noIdPostRecord : PostRecord :=
  { id := none
    datetime_str := none
    text := none
    has_photo := none
    has_video := none
    has_document := none
    image_url := none
    video_url := none
    views_str := "N/A"
    views := none
    shares_str := "N/A"
    shares := none
    forwards_str := "N/A"
    forwards := none
    tgstat_post_url := none
    telegram_post_url := none }

/-- A minimal post card with container id `post-<n>`. -/
def mkPostCard (n : Nat) : PostCard :=
  { idAttr := "post-" ++ toString n
    headerSmallText := none
    body := none
    statsRow := none
    permalinkHref := none
    dropdownHrefs := []
    tgFallbackHref := none }

/-- Batch `j` of the 20/20/20 feed: post ids `100 - 20*j` down to
`81 - 20*j` (most-recent-first). -/
def batchCards (j : Nat) : List PostCard :=
  (List.range 20).map (fun i => mkPostCard (100 - (20 * j + i)))

/-- The load-more response carrying batch 1, with no explicit next cursor. -/
def c67r0 : MoreResult :=
  { status := some "ok", html := some (batchCards 1), hasMore := true
    nextPage := none, nextOffset := none }

/-- The load-more response carrying batch 2, with no explicit next cursor. -/
def c67r1 : MoreResult :=
  { status := some "ok", html := some (batchCards 2), hasMore := true
    nextPage := none, nextOffset := none }

/-- Load-more endpoint of the 20/20/20 feed. -/
def c67more (k : Nat) : Option MoreResult :=
  if k = 0 then some c67r0 else if k = 1 then some c67r1 else none

/-- The 20/20/20 feed oracle: batch 0 on the landing page, batches 1 and 2
from the load-more endpoint. -/
def postsOracle : PostsOracle :=
  { initialHtml := some (batchCards 0), more := c67more }

/-- A feed whose initial batch ends in a post without a parseable id. -/
def c9Oracle : PostsOracle :=
  { initialHtml := some [mkPostCard 5, noIdPostCard], more := fun _ => none }

/-- First-page envelope: ok status, markup present, zero extractable cards. -/
def emptyFirstPageEnv : SearchEnv :=
  { status := some "ok", html := some [], hasMore := true
    nextPage := none, nextOffset := none }

/-- First-page search envelope that resets `nextPage` to 0. -/
def c2env0 : SearchEnv :=
  { status := some "ok", html := some [goodChannelCard], hasMore := true
    nextPage := some 0, nextOffset := some 30 }

/-- Search endpoint whose first response succeeds but echoes `nextPage = 0`,
and whose second request fails at transport level. -/
def c2resp (k : Nat) : Option SearchEnv :=
  if k = 0 then some c2env0 else none

/-- Page-0 envelope of the zero-records-on-a-later-page scenario. -/
def c3env0 : SearchEnv :=
  { status := some "ok", html := some [goodChannelCard], hasMore := true
    nextPage := some 1, nextOffset := some 30 }

/-- Page-1 envelope: ok status, markup present, zero extractable records. -/
def c3env1 : SearchEnv :=
  { status := some "ok", html := some [], hasMore := true
    nextPage := some 2, nextOffset := some 60 }

/-- Page-2 envelope: one record, `hasMore = false`. -/
def c3env2 : SearchEnv :=
  { status := some "ok", html := some [goodChannelCard], hasMore := false
    nextPage := some 3, nextOffset := some 90 }

/-- Search endpoint delivering one record, then zero records, then one. -/
def c3resp (k : Nat) : Option SearchEnv :=
  if k = 0 then some c3env0
  else if k = 1 then some c3env1
  else if k = 2 then some c3env2
  else none

/-! ### Claims -/

/-- Claim C4: the number normalizer satisfies the spec's example table:
`normalize("38.2k") = 38200`, `normalize("2m") = 2000000`,
`normalize("9279489") = 9279489`, `normalize("") = 0`, `normalize("n/a") = 0`,
and `normalize("garbage")` is none. -/
theorem C4_number_normalizer_examples :
    _parse_number "38.2k" = Except.ok (some 38200)
    ∧ _parse_number "2m" = Except.ok (some 2000000)
    ∧ _parse_number "9279489" = Except.ok (some 9279489)
    ∧ _parse_number "" = Except.ok (some 0)
    ∧ _parse_number "n/a" = Except.ok (some 0)
    ∧ _parse_number "garbage" = Except.ok none :=
  ⟨rfl, rfl, rfl, rfl, rfl, rfl⟩

/-- Claim C5 (code bug): the number normalizer is NOT total.  On the input
`"inf"` the integer parse fails with `ValueError`, the float parse yields
infinity, and `int(float('inf'))` raises `OverflowError`, which the
`except ValueError` handlers do not catch — the exception escapes the
function instead of `none` being returned. -/
theorem C5_normalizer_raises_on_infinite_float :
    _parse_number "inf" = Except.error PyError.overflowError :=
  rfl

/-- Claim C8: whenever a token refresh fails — the page fetch fails at the
transport layer, or neither the meta-tag pattern nor the hidden-input
pattern yields a token — the stored token is cleared to none (never left
stale), and a failure of the very first refresh makes initialization abort
with an error. -/
theorem C8_failed_refresh_clears_token_and_first_failure_fatal :
    (∀ fetch : Option TokenPage,
        (fetch = none ∨ ∃ p, fetch = some p ∧ p.metaContent = none ∧ p.inputValue = none) →
        _refresh_csrf_token fetch = (none, false))
    ∧ (∀ (fetch : Option TokenPage) (tok : Option String),
        _refresh_csrf_token fetch = (tok, false) → tok = none)
    ∧ (∀ (fetch : Option TokenPage) (tok : Option String),
        _refresh_csrf_token fetch = (tok, false) →
        initParser fetch = Except.error connInitError) := by
  refine ⟨?_, ?_, ?_⟩
  · rintro fetch (rfl | ⟨p, rfl, hm, hi⟩)
    · rfl
    · simp [_refresh_csrf_token, hm, hi]
  · intro fetch tok h
    cases fetch with
    | none =>
      simp only [_refresh_csrf_token, Prod.mk.injEq] at h
      exact h.1.symm
    | some p =>
      cases hm : p.metaContent with
      | some c => simp [_refresh_csrf_token, hm] at h
      | none =>
        cases hi : p.inputValue with
        | some v => simp [_refresh_csrf_token, hm, hi] at h
        | none =>
          simp only [_refresh_csrf_token, hm, hi, Prod.mk.injEq] at h
          exact h.1.symm
  · intro fetch tok h
    simp [initParser, h]

/-- Witness for C8: the transport-failure case and the no-pattern case both
clear the token, and the transport-failure case makes initialization fail. -/
theorem C8_witness :
    _refresh_csrf_token none = (none, false)
    ∧ _refresh_csrf_token (some { metaContent := none, inputValue := none }) = (none, false)
    ∧ initParser none = Except.error connInitError :=
  ⟨C8_failed_refresh_clears_token_and_first_failure_fatal.1 none (Or.inl rfl),
   C8_failed_refresh_clears_token_and_first_failure_fatal.1
     (some { metaContent := none, inputValue := none }) (Or.inr ⟨_, rfl, rfl, rfl⟩),
   C8_failed_refresh_clears_token_and_first_failure_fatal.2.2 none none rfl⟩

/-- Claim C10: `search_channels` with `max_pages = 0` returns the empty list
without issuing any request — the same value an ok first page with zero
extracted records produces, so the two are indistinguishable from the
returned list alone. -/
theorem C10_zero_page_budget_returns_empty :
    (∀ (resp : Nat → Option SearchEnv) (fuel : Nat),
        search_channels resp 0 fuel = some (some [], []))
    ∧ search_channels (fun _ => some emptyFirstPageEnv) 1 1 = some (some [], [(0, 0)]) := by
  constructor
  · intro resp fuel
    cases fuel with
    | zero => simp [search_channels, searchLoop]
    | succ n => simp [search_channels, searchLoop]
  · rfl

/-- Claim C1 counterexample: a post card whose container id does not match
`post-<digits>` DOES contribute a PostRecord — the record is kept with
`id = none`, not skipped as the claim states. -/
theorem C1_counterexample :
    _parse_posts_html [noIdPostCard] = [noIdPostRecord]
    ∧ noIdPostRecord.id = none
    ∧ _extract_post_id noIdPostCard.idAttr = none :=
  ⟨rfl, rfl, rfl⟩

/-- Claim C1 (amended): extraction never fails a batch for one malformed
record — a channel card without a stat-page link is skipped while the rest
of the batch is still returned, and a fragment with one well-formed channel
card and one card missing its stat-link yields exactly one ChannelRecord;
a post card whose container id does not match `post-<digits>`, however, is
NOT skipped: whenever a post record is produced, its id field is exactly the
(possibly failed) result of the id extraction. -/
theorem C1_mandatory_anchor_handling :
    (∀ (card : ChannelCard) (rest : List ChannelCard), hasStatLink card = false →
        _parse_search_html (card :: rest) = _parse_search_html rest)
    ∧ (_parse_search_html [goodChannelCard, noStatLinkCard]).length = 1
    ∧ (∀ (p : PostCard) (r : PostRecord), parsePostCard p = some r →
        r.id = _extract_post_id p.idAttr) := by
  refine ⟨?_, rfl, ?_⟩
  · intro card rest h
    have hall : ∀ x ∈ card.anchorHrefs, ¬((statLinkMatch? x).isSome = true) := by
      intro x hx
      have := List.any_eq_false.mp h x hx
      simpa using this
    have hf : card.anchorHrefs.find? (fun s => (statLinkMatch? s).isSome) = none :=
      List.find?_eq_none.mpr hall
    simp [_parse_search_html, parseChannelCard, hf]
  · intro p r h
    cases hps : postStats p with
    | error e =>
      simp only [parsePostCard, hps] at h
      exact Option.noConfusion h
    | ok v =>
      obtain ⟨⟨vs, v1⟩, ⟨ss, s1⟩, ⟨fs, f1⟩⟩ := v
      simp only [parsePostCard, hps] at h
      injection h with h2
      subst h2
      rfl

/-- Witness for C1: the skip rule applied to the concrete malformed channel
card, and the id rule applied to the concrete id-less post card. -/
theorem C1_witness :
    _parse_search_html (noStatLinkCard :: [goodChannelCard]) = _parse_search_html [goodChannelCard]
    ∧ noIdPostRecord.id = _extract_post_id noIdPostCard.idAttr :=
  ⟨C1_mandatory_anchor_handling.1 noStatLinkCard [goodChannelCard] (by decide),
   C1_mandatory_anchor_handling.2.2 noIdPostCard noIdPostRecord (by decide)⟩

/-- Claim C9: if the last post of the initial batch has no parseable id, the
post-feed driver issues no load-more request at all and returns just the
initial batch (truncated to `max_posts`), even when the requested maximum is
not yet reached. -/
theorem C9_missing_last_id_ends_feed_at_first_batch :
    ∀ (o : PostsOracle) (channel : String) (maxPosts fuel : Nat)
      (cards : List PostCard),
      channel ≠ "" →
      o.initialHtml = some cards →
      _parse_posts_html cards ≠ [] →
      ((_parse_posts_html cards).getLast?).map PostRecord.id = some none →
      get_channel_posts o channel maxPosts fuel
        = some (some ((_parse_posts_html cards).take maxPosts), []) := by
  intro o ch mp fuel cards hch hinit hne hlast
  have hcur : cursorOfLast (_parse_posts_html cards) = PyCursor.pyNone := by
    unfold cursorOfLast
    cases hgl : (_parse_posts_html cards).getLast? with
    | none => rfl
    | some p =>
      rw [hgl] at hlast
      simp only [Option.map_some'] at hlast
      injection hlast with hlast
      simp [hlast, cursorOfOptId]
  have hloop : postsLoop o.more mp fuel (_parse_posts_html cards) PyCursor.pyNone
      ((_parse_posts_html cards).length : Int) true 0 [] = some (_parse_posts_html cards, []) := by
    cases fuel <;> simp [postsLoop, PyCursor.truthy]
  simp only [get_channel_posts, if_neg hch, hinit]
  rw [if_neg hne, hcur, hloop]

/-- Witness for C9: a two-post initial batch ending in an id-less post stops
the feed with zero load-more requests. -/
theorem C9_witness :
    get_channel_posts c9Oracle "testchan" 50 3
      = some (some ((_parse_posts_html [mkPostCard 5, noIdPostCard]).take 50), []) :=
  C9_missing_last_id_ends_feed_at_first_batch c9Oracle "testchan" 50 3
    [mkPostCard 5, noIdPostCard] (by decide) rfl (by decide) (by decide)

/-- Claim C7: `get_channel_posts` never returns more than the requested
maximum — every successful result is the `take max_posts` prefix of the
accumulated records — and the 20/20/20 feed with `max_posts = 45` returns
exactly the first 45 accumulated records in fetch order. -/
theorem C7_result_truncated_to_max_posts :
    (∀ (o : PostsOracle) (channel : String) (maxPosts fuel : Nat)
        (out : List PostRecord) (tr : List (PyCursor × Int)),
        get_channel_posts o channel maxPosts fuel = some (some out, tr) →
        out.length ≤ maxPosts)
    ∧ get_channel_posts postsOracle "testchan" 45 5
        = some (some ((_parse_posts_html (batchCards 0) ++ _parse_posts_html (batchCards 1)
            ++ _parse_posts_html (batchCards 2)).take 45),
            [(PyCursor.pyInt 81, 20), (PyCursor.pyInt 61, 40)])
    ∧ ((_parse_posts_html (batchCards 0) ++ _parse_posts_html (batchCards 1)
        ++ _parse_posts_html (batchCards 2)).take 45).length = 45 := by
  refine ⟨?_, rfl, rfl⟩
  intro o ch mp fuel out tr h
  by_cases hch : ch = ""
  · simp [get_channel_posts, hch] at h
  · rw [get_channel_posts, if_neg hch] at h
    cases hinit : o.initialHtml with
    | none => rw [hinit] at h; simp at h
    | some cards =>
      rw [hinit] at h
      simp only at h
      by_cases hemp : _parse_posts_html cards = []
      · rw [if_pos hemp] at h
        simp only [Option.some.injEq, Prod.mk.injEq] at h
        obtain ⟨h1, _⟩ := h
        subst h1
        simp
      · rw [if_neg hemp] at h
        cases hl : postsLoop o.more mp fuel (_parse_posts_html cards)
            (cursorOfLast (_parse_posts_html cards))
            ((_parse_posts_html cards).length : Int) true 0 [] with
        | none => rw [hl] at h; exact Option.noConfusion h
        | some p =>
          obtain ⟨acc, tr0⟩ := p
          rw [hl] at h
          simp only [Option.some.injEq, Prod.mk.injEq] at h
          obtain ⟨h1, _⟩ := h
          subst h1
          rw [List.length_take]
          exact min_le_left _ _

/-- Witness for C7: the truncation bound evaluated on the 20/20/20 feed. -/
theorem C7_witness :
    ((_parse_posts_html (batchCards 0) ++ _parse_posts_html (batchCards 1)
      ++ _parse_posts_html (batchCards 2)).take 45).length ≤ 45 :=
  C7_result_truncated_to_max_posts.1 postsOracle "testchan" 45 5 _
    [(PyCursor.pyInt 81, 20), (PyCursor.pyInt 61, 40)] C7_result_truncated_to_max_posts.2.1

/-- Claim C6: after a successful load-more iteration the cursor carried by
the following request is the envelope's explicit next-cursor when present,
else the id of the last newly extracted post; in the 20/20/20 feed whose
envelopes carry no next-cursor, the 3rd request (2nd load-more) uses the
last post id of the 2nd response's batch, namely 61. -/
theorem C6_cursor_advance :
    (∀ (resp : Nat → Option MoreResult) (maxPosts fuel : Nat)
        (acc : List PostRecord) (last : PyCursor) (off : Int) (hm : Bool)
        (k : Nat) (tr : List (PyCursor × Int)) (r : MoreResult)
        (cards : List PostCard),
        (acc.length < maxPosts ∧ hm = true ∧ PyCursor.truthy last = true) →
        resp k = some r → r.status = some "ok" → r.html = some cards →
        _parse_posts_html cards ≠ [] →
        PyCursor.truthy (nextCursor r (_parse_posts_html cards)) = true →
        postsLoop resp maxPosts (fuel+1) acc last off hm k tr
          = postsLoop resp maxPosts fuel (acc ++ _parse_posts_html cards)
              (nextCursor r (_parse_posts_html cards))
              (nextOffsetVal r off (_parse_posts_html cards)) r.hasMore (k+1)
              (tr ++ [(last, off)]))
    ∧ (∀ (r : MoreResult) (newPosts : List PostRecord) (c : PyCursor),
        r.nextPage = some c → nextCursor r newPosts = c)
    ∧ (∀ (r : MoreResult) (newPosts : List PostRecord),
        r.nextPage = none → nextCursor r newPosts = cursorOfLast newPosts)
    ∧ (get_channel_posts postsOracle "testchan" 45 5).map Prod.snd
        = some [(PyCursor.pyInt 81, 20), (PyCursor.pyInt 61, 40)]
    ∧ cursorOfLast (_parse_posts_html (batchCards 1)) = PyCursor.pyInt 61
    ∧ (c67more 0).map MoreResult.nextPage = some none := by
  refine ⟨?_, ?_, ?_, rfl, rfl, rfl⟩
  · intro resp mp fuel acc last off hm k tr r cards hcond hresp hst hhtml hne htru
    conv_lhs => rw [postsLoop]
    rw [if_pos hcond]
    simp only [hresp]
    rw [if_pos hst]
    simp only [hhtml]
    rw [if_neg hne, if_pos htru]
  · intro r np c h; simp [nextCursor, h]
  · intro r np h; simp [nextCursor, h]

/-- Witness for C6: the first load-more iteration of the 20/20/20 feed
advances the loop state to the fallback cursor 61 and offset 40. -/
theorem C6_witness :
    postsLoop c67more 45 5 (_parse_posts_html (batchCards 0)) (PyCursor.pyInt 81)
        20 true 0 []
      = postsLoop c67more 45 4
          (_parse_posts_html (batchCards 0) ++ _parse_posts_html (batchCards 1))
          (nextCursor c67r0 (_parse_posts_html (batchCards 1)))
          (nextOffsetVal c67r0 20 (_parse_posts_html (batchCards 1)))
          c67r0.hasMore 1 [(PyCursor.pyInt 81, 20)] :=
  C6_cursor_advance.1 c67more 45 4 (_parse_posts_html (batchCards 0))
    (PyCursor.pyInt 81) 20 true 0 [] c67r0 (batchCards 1)
    ⟨by decide, rfl, by decide⟩ rfl rfl rfl (by decide) (by decide)

/-- Claim C3 counterexample: with one record on page 0, zero records on
page 1 and `hasMore` true throughout, the driver does not stop at page 1:
it issues a third request (trace `[(0,0),(1,30),(2,60)]`) and returns the
records of pages 0 and 2. -/
theorem C3_counterexample :
    search_channels c3resp 3 5
      = some (some [goodChannelInfo, goodChannelInfo], [(0, 0), (1, 30), (2, 60)])
    ∧ c3env1.html = some []
    ∧ _parse_search_html [] = [] :=
  ⟨rfl, rfl, rfl⟩

/-- Claim C3 (amended): extracting zero newly parsed records from a
successfully fetched page after the first is NOT terminal for the
channel-search flow — the driver appends nothing and continues with the
envelope's continuation hints exactly as for a non-empty page (only on the
first page does an empty parse terminate, returning the empty list). -/
theorem C3_zero_records_on_later_page_not_terminal :
    ∀ (resp : Nat → Option SearchEnv) (maxPages fuel page : Nat) (off : Int)
      (acc : List ChannelInfo) (k : Nat) (tr : List (Nat × Int))
      (env : SearchEnv) (cards : List ChannelCard),
      page < maxPages → page ≠ 0 →
      resp k = some env → env.status = some "ok" → env.html = some cards →
      _parse_search_html cards = [] →
      searchLoop resp maxPages (fuel+1) page off true acc k tr
        = searchLoop resp maxPages fuel (env.nextPage.getD (page+1))
            (env.nextOffset.getD (off+30)) env.hasMore acc (k+1)
            (tr ++ [(page, off)]) := by
  intro resp mp fuel page off acc k tr env cards hlt hp hresp hst hhtml hparse
  conv_lhs => rw [searchLoop]
  rw [if_pos ⟨hlt, rfl⟩]
  simp only [hresp]
  rw [if_pos hst]
  simp only [hhtml, hparse]
  rw [if_neg (fun hcon => hp hcon.2), List.append_nil]

/-- Witness for C3: the page-1 iteration of the concrete scenario, with zero
extracted records, steps to the page-2 state instead of terminating. -/
theorem C3_witness :
    searchLoop c3resp 3 4 1 30 true [goodChannelInfo] 1 [(0, 0)]
      = searchLoop c3resp 3 3 (c3env1.nextPage.getD 2) (c3env1.nextOffset.getD 60)
          c3env1.hasMore [goodChannelInfo] 2 [(0, 0), (1, 30)] :=
  C3_zero_records_on_later_page_not_terminal c3resp 3 3 1 30 [goodChannelInfo] 1
    [(0, 0)] c3env1 [] (by decide) (by decide) rfl rfl rfl rfl

/-- Loop invariant for the failure outcome of the search driver: when the
loop is entered with a trace of length `k` (one entry per request already
issued) and returns the Python-`None` outcome, the last request of the
returned trace was issued at page index 0 and failed. -/
theorem searchLoop_none_trace (resp : Nat → Option SearchEnv) (maxPages : Nat) :
    ∀ (fuel page : Nat) (off : Int) (hm : Bool) (acc : List ChannelInfo)
      (k : Nat) (tr : List (Nat × Int)) (res : List (Nat × Int)),
      tr.length = k →
      searchLoop resp maxPages fuel page off hm acc k tr = some (none, res) →
      res ≠ [] ∧ res.getLast?.map Prod.fst = some 0
        ∧ searchReqFails (resp (res.length - 1)) = true := by
  intro fuel
  induction fuel with
  | zero =>
    intro page off hm acc k tr res hk h
    rw [searchLoop] at h
    by_cases hc : page < maxPages ∧ hm = true
    · rw [if_pos hc] at h; exact Option.noConfusion h
    · rw [if_neg hc] at h
      injection h with h'
      exact Option.noConfusion (congrArg Prod.fst h')
  | succ n ih =>
    intro page off hm acc k tr res hk h
    rw [searchLoop] at h
    by_cases hc : page < maxPages ∧ hm = true
    · rw [if_pos hc] at h
      cases hr : resp k with
      | none =>
        simp only [hr] at h
        by_cases hp : page = 0
        · rw [if_pos hp] at h
          injection h with h'
          have hres : tr ++ [(page, off)] = res := congrArg Prod.snd h'
          subst hp
          refine ⟨?_, ?_, ?_⟩
          · rw [← hres]; simp
          · rw [← hres, List.getLast?_append_cons]; rfl
          · have hlen : res.length - 1 = k := by
              rw [← hres, List.length_append, List.length_singleton, hk]
              exact Nat.add_sub_cancel k 1
            rw [hlen, hr]; rfl
        · rw [if_neg hp] at h
          injection h with h'
          exact Option.noConfusion (congrArg Prod.fst h')
      | some env =>
        simp only [hr] at h
        by_cases hs : env.status = some "ok"
        · rw [if_pos hs] at h
          cases hh : env.html with
          | none =>
            simp only [hh] at h
            injection h with h'
            exact Option.noConfusion (congrArg Prod.fst h')
          | some cards =>
            simp only [hh] at h
            by_cases hz : _parse_search_html cards = [] ∧ page = 0
            · rw [if_pos hz] at h
              injection h with h'
              exact Option.noConfusion (congrArg Prod.fst h')
            · rw [if_neg hz] at h
              exact ih _ _ _ _ (k+1) (tr ++ [(page, off)]) res
                (by rw [List.length_append, List.length_singleton, hk]) h
        · rw [if_neg hs] at h
          by_cases hp : page = 0
          · rw [if_pos hp] at h
            injection h with h'
            have hres : tr ++ [(page, off)] = res := congrArg Prod.snd h'
            subst hp
            refine ⟨?_, ?_, ?_⟩
            · rw [← hres]; simp
            · rw [← hres, List.getLast?_append_cons]; rfl
            · have hlen : res.length - 1 = k := by
                rw [← hres, List.length_append, List.length_singleton, hk]
                exact Nat.add_sub_cancel k 1
              rw [hlen, hr]
              simp only [searchReqFails]
              exact bne_iff_ne.mpr hs
          · rw [if_neg hp] at h
            injection h with h'
            exact Option.noConfusion (congrArg Prod.fst h')
    · rw [if_neg hc] at h
      injection h with h'
      exact Option.noConfusion (congrArg Prod.fst h')

/-- Claim C2 counterexample: when the first page succeeds (ok status, one
record extracted) but its envelope resets `nextPage` to 0 and the second
request then fails, `search_channels` returns the distinguished failure
outcome `None` even though the very first page request did not fail — so
"None exactly when the very first page request fails" is false. -/
theorem C2_counterexample :
    search_channels c2resp 2 5 = some (none, [(0, 0), (0, 30)])
    ∧ c2resp 0 = some c2env0
    ∧ c2env0.status = some "ok"
    ∧ searchReqFails (c2resp 0) = false :=
  ⟨rfl, rfl, rfl, rfl⟩

/-- Claim C2 (amended): `search_channels` returns the distinguished failure
outcome `None` when the very first page request fails at transport level,
cannot be decoded, or has a non-ok envelope status; it returns the empty
list when the first page succeeds but zero channel records are extracted;
and in general `None` is returned exactly when a request issued while the
driver's page counter is 0 fails — the first request, unless an envelope
resets `nextPage` to 0. -/
theorem C2_first_page_failure_vs_empty :
    (∀ (resp : Nat → Option SearchEnv) (maxPages fuel : Nat),
        searchReqFails (resp 0) = true →
        search_channels resp (maxPages+1) (fuel+1) = some (none, [(0, 0)]))
    ∧ (∀ (resp : Nat → Option SearchEnv) (maxPages fuel : Nat)
        (env : SearchEnv) (cards : List ChannelCard),
        resp 0 = some env → env.status = some "ok" → env.html = some cards →
        _parse_search_html cards = [] →
        search_channels resp (maxPages+1) (fuel+1) = some (some [], [(0, 0)]))
    ∧ (∀ (resp : Nat → Option SearchEnv) (maxPages fuel : Nat)
        (res : List (Nat × Int)),
        search_channels resp maxPages fuel = some (none, res) →
        res ≠ [] ∧ res.getLast?.map Prod.fst = some 0
          ∧ searchReqFails (resp (res.length - 1)) = true) := by
  refine ⟨?_, ?_, ?_⟩
  · intro resp mp fuel hf
    rw [search_channels, searchLoop, if_pos ⟨Nat.succ_pos mp, rfl⟩]
    cases hr : resp 0 with
    | none => simp only [hr]; rfl
    | some env =>
      have hs : ¬env.status = some "ok" := by
        rw [hr] at hf
        simpa only [searchReqFails, bne_iff_ne, ne_eq] using hf
      simp only [hr]
      rw [if_neg hs]
      rfl
  · intro resp mp fuel env cards hr hs hh hparse
    rw [search_channels, searchLoop, if_pos ⟨Nat.succ_pos mp, rfl⟩]
    simp only [hr]
    rw [if_pos hs]
    simp only [hh, hparse]
    rw [if_pos ⟨trivial, trivial⟩]
    rfl
  · intro resp mp fuel res h
    exact searchLoop_none_trace resp mp fuel 0 0 true [] 0 [] res rfl h

/-- Witness for C2: a transport-dead endpoint yields the failure outcome
after one request; an ok-but-empty first page yields the empty list; and the
failure trace of the dead endpoint indeed ends in a failed page-0 request. -/
theorem C2_witness :
    search_channels (fun _ => none) 1 1 = some (none, [(0, 0)])
    ∧ search_channels (fun _ => some emptyFirstPageEnv) 2 3 = some (some [], [(0, 0)])
    ∧ (([((0 : Nat), (0 : Int))] : List (Nat × Int)) ≠ []
        ∧ ([((0 : Nat), (0 : Int))] : List (Nat × Int)).getLast?.map Prod.fst = some 0
        ∧ searchReqFails ((fun _ => (none : Option SearchEnv)) 0) = true) :=
  ⟨C2_first_page_failure_vs_empty.1 (fun _ => none) 0 0 rfl,
   C2_first_page_failure_vs_empty.2.1 (fun _ => some emptyFirstPageEnv) 1 2
     emptyFirstPageEnv [] rfl rfl rfl rfl,
   C2_first_page_failure_vs_empty.2.2 (fun _ => none) 1 1 [(0, 0)] rfl⟩
